import Mathlib

/-!
Verification development for the Network-Monitor backend (`src/server.js`).

The file shallowly embeds the discovery-and-reconciliation engine of the
server: network-range derivation (`calculateNetworkRange`), per-host probing
(`scanHost`), device classification (`guessDeviceType`), the concurrent subnet
sweep (`scanNetworkARP`), the `/api/scan` endpoint with its in-progress flag
(`handleScan`), the device store (a JavaScript `Map`, embedded as an
insertion-ordered association list with `storeSet`/`storeGet`), and the
30-second monitoring loop (`monitorCycle`).  Effects of the JavaScript runtime
(ping, ARP, DNS, clocks) are passed in as explicit oracles; asynchronous
completion of a sweep is modelled by the sweep's settled outcome per address.

String primitives are re-implemented structurally (rather than through the
builtin `String` functions) so that every definition reduces in the kernel;
they follow the JavaScript semantics the server relies on (`split`,
`toLowerCase`, `includes`, `parseInt`, `||` defaulting).
-/

set_option maxRecDepth 40000
set_option linter.unusedVariables false

namespace NetworkMonitor

/-- Character list split on a separator character, JavaScript
`String.prototype.split` semantics for a one-character separator:
`"" → [""]`, separators at the ends produce empty fields. -/
def splitChar (c : Char) : List Char → List (List Char)
  | [] => [[]]
  | x :: xs =>
    let r := splitChar c xs
    if x = c then [] :: r
    else
      match r with
      | [] => [[x]]
      | y :: ys => (x :: y) :: ys

/-- JavaScript `s.split(c)` for a single-character separator. -/
def splitOnChar (s : String) (c : Char) : List String :=
  (splitChar c s.data).map (fun l => String.mk l)

/-- ASCII lower-casing of one character (what `toLowerCase` does on the
hostname patterns the classifier matches against). -/
def lowerChar (c : Char) : Char :=
  if 'A' ≤ c ∧ c ≤ 'Z' then Char.ofNat (c.toNat + 32) else c

/-- JavaScript `s.toLowerCase()` (ASCII range). -/
def strToLower (s : String) : String :=
  String.mk (s.data.map lowerChar)

/-- ASCII upper-casing of one character. -/
def upperChar (c : Char) : Char :=
  if 'a' ≤ c ∧ c ≤ 'z' then Char.ofNat (c.toNat - 32) else c

/-- JavaScript `s.toUpperCase()` (ASCII range). -/
def strToUpper (s : String) : String :=
  String.mk (s.data.map upperChar)

/-- JavaScript `s.includes(pat)`: substring containment. -/
def strContains (s pat : String) : Bool :=
  decide (pat.data <:+: s.data)

/-- JavaScript indexing `l[i]` on the result of a `split`, where an
out-of-range index yields `undefined` (which stringifies to `"undefined"`
when interpolated, as in `calculateNetworkRange`). -/
def jsIndex (l : List String) (i : Nat) : String :=
  l.getD i "undefined"

/-- JavaScript `parseInt` restricted to the shapes that occur here: the
longest leading run of decimal digits is parsed; no digits means `NaN`,
embedded as `none`. -/
def jsParseInt (s : String) : Option Nat :=
  let ds := s.data.takeWhile Char.isDigit
  if ds.isEmpty then none
  else some (ds.foldl (fun n c => n * 10 + (c.toNat - 48)) 0)

/-- JavaScript `v || dflt` on a nullable string: `null` and `""` are falsy. -/
def jsOrStr (v : Option String) (dflt : String) : String :=
  match v with
  | none => dflt
  | some s => if s = "" then dflt else s

/-- Last octet of an address as the server computes it:
`parseInt(ip.split('.')[3])`. -/
def lastOctetOf (ip : String) : Option Nat :=
  jsParseInt (jsIndex (splitOnChar ip '.') 3)

/-- Hostname-pattern branch of `guessDeviceType` (`src/server.js` lines
148-157): the chain of early returns on `lower.includes(...)` where
`lower = hostname.toLowerCase()`, embedded as an `Option` with `none` for
fall-through. -/
def hostnameClass (h : String) : Option String :=
  if strContains (strToLower h) "router" || strContains (strToLower h) "gateway" then
    some "Router"
  else if strContains (strToLower h) "switch" then some "Switch"
  else if strContains (strToLower h) "printer" then some "Printer"
  else if strContains (strToLower h) "phone" || strContains (strToLower h) "android" ||
      strContains (strToLower h) "iphone" then some "Phone"
  else if strContains (strToLower h) "tv" || strContains (strToLower h) "roku" ||
      strContains (strToLower h) "chromecast" then some "Smart TV"
  else if strContains (strToLower h) "camera" then some "Camera"
  else if strContains (strToLower h) "server" then some "Server"
  else none

/-- Default classification by last octet, `guessDeviceType` lines 165-168:
`lastOctet <= 50 → Server`, `<= 100 → Computer`, else `Device`; a `NaN`
octet fails both comparisons and yields `Device`. -/
def octetClass (lastOctet : Option Nat) : String :=
  match lastOctet with
  | some n => if n ≤ 50 then "Server" else if n ≤ 100 then "Computer" else "Device"
  | none => "Device"

/-- Device-type heuristic, `guessDeviceType(ip, hostname, mac)`
(`src/server.js` lines 140-169).  `hostname` and `mac` are nullable; the
`if (hostname)` / `if (mac)` truthiness checks treat `null` and `""` as
falsy.  The MAC branch only computes a vendor prefix into a local constant
that is never read afterwards (the source's OUI lookup is an empty stub),
so it is dead code with respect to the returned value and the embedding
keeps `mac` as an unused parameter. -/
def guessDeviceType (ip : String) (hostname : Option String) (mac : Option String) : String :=
  if lastOctetOf ip = some 1 then "Router"
  else
    match
      (match hostname with
       | some h => if h = "" then none else hostnameClass h
       | none => none) with
    | some t => t
    | none => octetClass (lastOctetOf ip)

/-- Network-range derivation, `calculateNetworkRange(ip, netmask)`
(`src/server.js` lines 51-55): first three dot-fields of `ip` joined with
`".0/24"`; the `netmask` parameter is accepted but never read. -/
def calculateNetworkRange (ip : String) (netmask : String) : String :=
  let ipParts := splitOnChar ip '.'
  jsIndex ipParts 0 ++ "." ++ jsIndex ipParts 1 ++ "." ++ jsIndex ipParts 2 ++ ".0/24"

/-- Closed classification set of the specification (§4.2). -/
inductive DeviceClass where
  | Router | Switch | Printer | Phone | SmartTV | Camera | Server | Computer | Device
  deriving DecidableEq, Repr

/-- Rendering of a `DeviceClass` as the label string the server stores
(the source spells the SmartTV class `"Smart TV"`). -/
def classLabel : DeviceClass → String
  | .Router => "Router"
  | .Switch => "Switch"
  | .Printer => "Printer"
  | .Phone => "Phone"
  | .SmartTV => "Smart TV"
  | .Camera => "Camera"
  | .Server => "Server"
  | .Computer => "Computer"
  | .Device => "Device"

/-- Fallback classification by last octet, from the spec's words (§4.2):
"otherwise, by last octet: ≤50 → Server; ≤100 → Computer; else → Device". -/
def specOctetClass (lastOctet : Nat) : DeviceClass :=
  if lastOctet ≤ 50 then .Server else if lastOctet ≤ 100 then .Computer else .Device

/-- Classification heuristic written from the spec's words (§4.2), to be
compared with `guessDeviceType`: an ordered, deterministic heuristic,
evaluated top to bottom, first match wins — last octet == 1 → Router;
resolved name contains (case-insensitive) router/gateway → Router,
switch → Switch, printer → Printer, phone/android/iphone → Phone,
tv/roku/chromecast → SmartTV, camera → Camera, server → Server;
otherwise by last octet. -/
def specClassify (lastOctet : Nat) (name : Option String) : DeviceClass :=
  if lastOctet = 1 then .Router
  else
    match name with
    | none => specOctetClass lastOctet
    | some h =>
      if strContains (strToLower h) "router" || strContains (strToLower h) "gateway" then
        .Router
      else if strContains (strToLower h) "switch" then .Switch
      else if strContains (strToLower h) "printer" then .Printer
      else if strContains (strToLower h) "phone" || strContains (strToLower h) "android" ||
          strContains (strToLower h) "iphone" then .Phone
      else if strContains (strToLower h) "tv" || strContains (strToLower h) "roku" ||
          strContains (strToLower h) "chromecast" then .SmartTV
      else if strContains (strToLower h) "camera" then .Camera
      else if strContains (strToLower h) "server" then .Server
      else specOctetClass lastOctet

/-- Device record as built by `scanHost` and stored in the `devices` map
(`src/server.js` lines 103-111).  `lastSeen` is a clock value (the embedding
threads `new Date()` as an explicit `now : Nat`); `responseTime` the probe
latency. -/
structure Device where
  ip : String
  mac : String
  hostname : String
  type : String
  status : String
  lastSeen : Nat
  responseTime : Nat
  deriving DecidableEq, Repr

/-- Outcome of the external capabilities a successful ping exposes to
`scanHost`: aliveness, latency, and the nullable results of the ARP and
reverse-DNS lookups (`getMacAddress` / `getHostname` resolve `null` on
failure, never reject). -/
structure HostReply where
  alive : Bool
  time : Nat
  mac : Option String
  hostname : Option String
  deriving DecidableEq, Repr

/-- Record constructed by `scanHost` for a live host (`src/server.js` lines
103-111): `mac || 'Unknown'`, `hostname || ip`, classification from the raw
nullable lookups, status `'online'`, `lastSeen = new Date()`. -/
def mkDevice (ip : String) (r : HostReply) (now : Nat) : Device :=
  { ip := ip
    mac := jsOrStr r.mac "Unknown"
    hostname := jsOrStr r.hostname ip
    type := guessDeviceType ip r.hostname r.mac
    status := "online"
    lastSeen := now
    responseTime := r.time }

/-- Per-host probe, `scanHost(ip)` (`src/server.js` lines 86-117).  The
environment oracle `env` gives each address's probe outcome: `none` when the
ping threw (caught by the `try`, returning `null`), `some r` when it
resolved.  A non-alive reply also yields `null`. -/
def scanHost (ip : String) (env : String → Option HostReply) (now : Nat) : Option Device :=
  match env ip with
  | none => none
  | some r => if r.alive then some (mkDevice ip r now) else none

/-- Local interface data returned by `getLocalNetwork` when a non-loopback
IPv4 interface exists. -/
structure NetworkInfo where
  ip : String
  netmask : String
  deriving DecidableEq, Repr

/-- Base address prefix the sweep loop uses (`src/server.js` line 65):
`networkRange.split('/')[0].split('.').slice(0, 3).join('.')`. -/
def baseIPOf (net : NetworkInfo) : String :=
  String.intercalate "."
    (((splitOnChar (jsIndex (splitOnChar (calculateNetworkRange net.ip net.netmask) '/') 0)
      '.').take 3))

/-- Last-octet values enumerated by the sweep loop `for (let i = 1; i <= 254; i++)`
(`src/server.js` line 70). -/
def sweepOctets : List Nat :=
  (List.range 254).map (fun i => i + 1)

/-- Candidate addresses probed by one sweep: one per last octet 1..254
(template literal `baseIP + '.' + i`). -/
def sweepAddresses (base : String) : List String :=
  sweepOctets.map (fun i => base ++ "." ++ Nat.repr i)

/-- Subnet sweep, `scanNetworkARP` after topology resolution
(`src/server.js` lines 64-82): fan out `scanHost` over the range,
`Promise.allSettled`, keep the fulfilled non-null values in order.
`scanHost` never rejects (its body is fully wrapped in `try`), so settled
outcomes are exactly the `Option Device` results. -/
def scanNetworkARP (net : NetworkInfo) (env : String → Option HostReply) (now : Nat) :
    List Device :=
  (sweepAddresses (baseIPOf net)).filterMap (fun ip => scanHost ip env now)

/-- Device store: the JavaScript `Map` keyed by address, embedded as an
insertion-ordered association list. -/
abbrev Store := List (String × Device)

/-- JavaScript `Map.prototype.set`: replace in place when the key exists,
otherwise append at the end. -/
def storeSet (s : Store) (k : String) (v : Device) : Store :=
  if s.any (fun p => p.1 = k) then
    s.map (fun p => if p.1 = k then (k, v) else p)
  else
    s ++ [(k, v)]

/-- JavaScript `Map.prototype.get`, embedded as the first entry with the
key. -/
def storeGet (s : Store) (k : String) : Option Device :=
  (s.find? (fun p => p.1 = k)).map Prod.snd

/-- JavaScript `Array.from(devices.values())`: values in insertion order. -/
def storeValues (s : Store) : List Device :=
  s.map Prod.snd

/-- Mutable module state of the server: the `devices` map and the
`scanInProgress` flag (`src/server.js` lines 26-27). -/
structure ServerState where
  devices : Store
  scanInProgress : Bool
  deriving DecidableEq, Repr

/-- Initial module state: empty map, flag `false`. -/
def initialState : ServerState :=
  ⟨[], false⟩

/-- Response of the `POST /api/scan` handler: 409 conflict, 200 with count
and device list, or 500 with the error message. -/
inductive ScanResponse where
  | conflict
  | ok (devicesFound : Nat) (devices : List Device)
  | serverError (msg : String)
  deriving DecidableEq, Repr

/-- HTTP status code of each `ScanResponse`. -/
def httpStatus : ScanResponse → Nat
  | .conflict => 409
  | .ok _ _ => 200
  | .serverError _ => 500

/-- WebSocket broadcasts the engine emits (`broadcastUpdate` calls):
`'scan-complete'` with the full snapshot, `'status-change'` with address,
new status and lastSeen. -/
inductive Event where
  | scanComplete (snapshot : List Device)
  | statusChange (ip : String) (status : String) (lastSeen : Nat)
  deriving DecidableEq, Repr

/-- Address an event concerns, when it is a status-change event. -/
def eventAddr : Event → Option String
  | .scanComplete _ => none
  | .statusChange ip _ _ => some ip

/-- Result of one `POST /api/scan` request: the module state afterwards,
the HTTP response, and the broadcasts emitted. -/
structure ScanOutcome where
  state : ServerState
  resp : ScanResponse
  events : List Event
  deriving DecidableEq, Repr

/-- The `POST /api/scan` handler (`src/server.js` lines 193-221).
`net` is `getLocalNetwork()`'s result (`none` makes `scanNetworkARP` throw
`'Could not determine local network'`, caught by the handler's `catch`);
`env` the per-address probe oracle; `now` the clock.  The flag is checked
first (409 without touching the store), set for the duration of the sweep,
and cleared in `finally` on both the success and the error path.  On
success every discovered device is merged with `devices.set(device.ip,
device)` in result order, then `'scan-complete'` is broadcast with the full
snapshot and the response carries the count and list from this sweep. -/
def handleScan (st : ServerState) (net : Option NetworkInfo)
    (env : String → Option HostReply) (now : Nat) : ScanOutcome :=
  if st.scanInProgress then
    ⟨st, .conflict, []⟩
  else
    match net with
    | none =>
      ⟨{ st with scanInProgress := false },
        .serverError "Could not determine local network", []⟩
    | some n =>
      let discovered := scanNetworkARP n env now
      let devices1 := discovered.foldl (fun s d => storeSet s d.ip d) st.devices
      ⟨⟨devices1, false⟩, .ok discovered.length discovered,
        [.scanComplete (storeValues devices1)]⟩

/-- Settled outcome of one reconciliation ping `ping.promise.probe(ip,
{timeout: 1})`: resolved with an aliveness, or rejected. -/
inductive PingOutcome where
  | ok (alive : Bool)
  | err
  deriving DecidableEq, Repr

/-- One pass of the 30-second monitoring loop (`src/server.js` lines
296-313), processing the store entries in iteration order: on a resolved
probe the record's status becomes `'online'`/`'offline'`, `lastSeen`
advances only when alive, and a `'status-change'` event is broadcast when
the status differs from the previous value.  The loop body has no
`try`/`catch`, so a rejected probe promise aborts the cycle: the current
and all remaining entries are left untouched and no further events are
emitted. -/
def monitorCycle (devs : Store) (penv : String → PingOutcome) (now : Nat) :
    Store × List Event :=
  match devs with
  | [] => ([], [])
  | (ip, d) :: rest =>
    match penv ip with
    | .err => ((ip, d) :: rest, [])
    | .ok alive =>
      let newStatus := if alive then "online" else "offline"
      let newSeen := if alive then now else d.lastSeen
      let d1 : Device := { d with status := newStatus, lastSeen := newSeen }
      let evs := if d.status ≠ newStatus then [Event.statusChange ip newStatus newSeen] else []
      let r := monitorCycle rest penv now
      ((ip, d1) :: r.1, evs ++ r.2)

/-- States of the server reachable from startup, with a fixed local network
topology `net`: the store starts empty with the flag clear, and the only
operations that mutate the module state are `POST /api/scan` requests and
monitoring passes (every other route only reads `devices`). -/
inductive Reachable (net : Option NetworkInfo) : ServerState → Prop where
  | init : Reachable net initialState
  | scan (st : ServerState) (env : String → Option HostReply) (now : Nat) :
      Reachable net st → Reachable net (handleScan st net env now).state
  | monitor (st : ServerState) (penv : String → PingOutcome) (now : Nat) :
      Reachable net st →
      Reachable net ⟨(monitorCycle st.devices penv now).1, st.scanInProgress⟩

/-!  Association-list lemmas for the JavaScript `Map` embedding. -/

lemma storeGet_nil (k : String) : storeGet [] k = none := rfl

lemma storeGet_cons (a : String × Device) (t : Store) (k : String) :
    storeGet (a :: t) k = if a.1 = k then some a.2 else storeGet t k := by
  rw [storeGet, List.find?_cons]
  by_cases h : a.1 = k
  · simp [h]
  · simp [h, storeGet]

lemma storeGet_eq_none_iff (s : Store) (k : String) :
    storeGet s k = none ↔ ∀ p ∈ s, p.1 ≠ k := by
  simp [storeGet, List.find?_eq_none]

lemma storeSet_cons_ne (a : String × Device) (t : Store) (k : String) (v : Device)
    (hak : a.1 ≠ k) :
    storeSet (a :: t) k v = a :: storeSet t k v := by
  unfold storeSet
  by_cases h : t.any (fun p => p.1 = k) = true
  · simp [List.any_cons, hak, h]
  · simp [List.any_cons, hak, h]

lemma storeGet_map_replace (t : Store) (k k1 : String) (v : Device) (hk : k1 ≠ k) :
    storeGet (t.map (fun p => if p.1 = k then (k, v) else p)) k1 = storeGet t k1 := by
  induction t with
  | nil => rfl
  | cons p t ih =>
    by_cases hpk : p.1 = k
    · rw [List.map_cons, if_pos hpk, storeGet_cons, storeGet_cons]
      rw [if_neg (fun h => hk h.symm), if_neg (fun h => hk (hpk ▸ h).symm)]
      exact ih
    · rw [List.map_cons, if_neg hpk, storeGet_cons, storeGet_cons]
      by_cases hpk1 : p.1 = k1
      · rw [if_pos hpk1, if_pos hpk1]
      · rw [if_neg hpk1, if_neg hpk1]
        exact ih

lemma storeGet_storeSet_self (s : Store) (k : String) (v : Device) :
    storeGet (storeSet s k v) k = some v := by
  induction s with
  | nil =>
    have he : storeSet [] k v = [(k, v)] := rfl
    rw [he, storeGet_cons, if_pos rfl]
  | cons a t ih =>
    by_cases hak : a.1 = k
    · unfold storeSet
      have hany : ((a :: t).any (fun p => p.1 = k)) = true := by simp [List.any_cons, hak]
      rw [if_pos hany, List.map_cons, if_pos hak, storeGet_cons]
      simp
    · rw [storeSet_cons_ne a t k v hak, storeGet_cons, if_neg hak]
      exact ih

lemma storeGet_storeSet_ne (s : Store) (k k1 : String) (v : Device) (hk : k1 ≠ k) :
    storeGet (storeSet s k v) k1 = storeGet s k1 := by
  induction s with
  | nil =>
    have he : storeSet [] k v = [(k, v)] := rfl
    rw [he, storeGet_cons, if_neg (Ne.symm hk)]
  | cons a t ih =>
    by_cases hak : a.1 = k
    · unfold storeSet
      have hany : ((a :: t).any (fun p => p.1 = k)) = true := by simp [List.any_cons, hak]
      rw [if_pos hany, List.map_cons, if_pos hak, storeGet_cons, storeGet_cons]
      rw [if_neg (fun h => hk h.symm), if_neg (fun h => hk (hak ▸ h).symm)]
      exact storeGet_map_replace t k k1 v hk
    · rw [storeSet_cons_ne a t k v hak, storeGet_cons, storeGet_cons]
      by_cases hak1 : a.1 = k1
      · rw [if_pos hak1, if_pos hak1]
      · rw [if_neg hak1, if_neg hak1]
        exact ih

lemma length_storeSet (s : Store) (k : String) (v : Device) :
    (storeSet s k v).length = if storeGet s k = none then s.length + 1 else s.length := by
  unfold storeSet
  by_cases hany : s.any (fun p => p.1 = k) = true
  · have hne : ¬ storeGet s k = none := by
      rcases List.any_eq_true.mp hany with ⟨p, hp, hpk⟩
      rw [storeGet_eq_none_iff]
      push_neg
      exact ⟨p, hp, by simpa using hpk⟩
    rw [if_pos hany, List.length_map, if_neg hne]
  · have heq : storeGet s k = none := by
      rw [storeGet_eq_none_iff]
      intro p hp hpk
      exact hany (List.any_eq_true.mpr ⟨p, hp, by simp [hpk]⟩)
    rw [if_neg hany, List.length_append, if_pos heq]
    rfl

lemma mem_storeSet (s : Store) (k : String) (v : Device) (p : String × Device)
    (h : p ∈ storeSet s k v) : p ∈ s ∨ p = (k, v) := by
  unfold storeSet at h
  by_cases hany : s.any (fun q => q.1 = k) = true
  · rw [if_pos hany] at h
    rcases List.mem_map.mp h with ⟨q, hq, hqe⟩
    by_cases hqk : q.1 = k
    · right
      rw [if_pos hqk] at hqe
      exact hqe.symm
    · left
      rw [if_neg hqk] at hqe
      exact hqe ▸ hq
  · rw [if_neg hany] at h
    rcases List.mem_append.mp h with h | h
    · exact Or.inl h
    · exact Or.inr (List.mem_singleton.mp h)


/-!  Lemmas about the sweep and the monitoring loop. -/

lemma scanHost_ip (a : String) (env : String → Option HostReply) (now : Nat) (d : Device)
    (h : scanHost a env now = some d) : d.ip = a := by
  unfold scanHost at h
  cases he : env a with
  | none => rw [he] at h; cases h
  | some r =>
    rw [he] at h
    simp only at h
    cases hr : r.alive with
    | false => simp [hr] at h
    | true =>
      simp [hr] at h
      rw [← h]
      rfl

lemma mem_foldl_storeSet (l : List Device) : ∀ (s0 : Store) (k : String) (d : Device),
    (k, d) ∈ l.foldl (fun s dv => storeSet s dv.ip dv) s0 →
    (k, d) ∈ s0 ∨ ∃ dev ∈ l, k = dev.ip := by
  induction l with
  | nil =>
    intro s0 k d h
    exact Or.inl h
  | cons x t ih =>
    intro s0 k d h
    rw [List.foldl_cons] at h
    rcases ih _ k d h with h1 | ⟨dev, hdev, hk⟩
    · rcases mem_storeSet _ _ _ _ h1 with h2 | h2
      · exact Or.inl h2
      · right
        refine ⟨x, List.mem_cons_self _ _, ?_⟩
        exact congrArg Prod.fst h2
    · exact Or.inr ⟨dev, List.mem_cons_of_mem _ hdev, hk⟩

lemma mem_sweepAddresses (base : String) (a : String) (h : a ∈ sweepAddresses base) :
    ∃ v, 1 ≤ v ∧ v ≤ 254 ∧ a = base ++ "." ++ Nat.repr v := by
  rcases List.mem_map.mp h with ⟨v, hv, rfl⟩
  rcases List.mem_map.mp hv with ⟨i, hi, rfl⟩
  rw [List.mem_range] at hi
  exact ⟨i + 1, by omega, by omega, rfl⟩

lemma monitorCycle_keys (devs : Store) (penv : String → PingOutcome) (now : Nat) :
    ((monitorCycle devs penv now).1).map Prod.fst = devs.map Prod.fst := by
  induction devs with
  | nil => rfl
  | cons a t ih =>
    obtain ⟨ip, d⟩ := a
    rw [monitorCycle]
    cases h : penv ip with
    | err => simp
    | ok alive => simp [ih]

lemma monitorCycle_eventAddr (devs : Store) (penv : String → PingOutcome) (now : Nat) :
    ∀ e ∈ (monitorCycle devs penv now).2,
      ∃ ipx, eventAddr e = some ipx ∧ ipx ∈ devs.map Prod.fst := by
  induction devs with
  | nil => intro e he; cases he
  | cons a t ih =>
    obtain ⟨ip, d⟩ := a
    intro e he
    rw [monitorCycle] at he
    cases h : penv ip with
    | err => rw [h] at he; cases he
    | ok alive =>
      rw [h] at he
      simp only at he
      rcases List.mem_append.mp he with hl | hr
      · by_cases hst : d.status ≠ (if alive then "online" else "offline")
        · rw [if_pos hst] at hl
          rcases List.mem_singleton.mp hl with rfl
          exact ⟨ip, rfl, List.mem_cons_self _ _⟩
        · rw [if_neg hst] at hl
          cases hl
      · rcases ih e hr with ⟨ipx, he1, he2⟩
        exact ⟨ipx, he1, List.mem_cons_of_mem _ he2⟩

lemma octetClass_eq_spec (n : Nat) : octetClass (some n) = classLabel (specOctetClass n) := by
  show (if n ≤ 50 then "Server" else if n ≤ 100 then "Computer" else "Device") = _
  unfold specOctetClass
  split_ifs <;> rfl

lemma guess_eq_spec (ip : String) (h : Option String) (m : Option String) (n : Nat)
    (hoct : lastOctetOf ip = some n) :
    guessDeviceType ip h m = classLabel (specClassify n h) := by
  unfold guessDeviceType specClassify
  rw [hoct]
  by_cases hn : n = 1
  · subst hn; simp [classLabel]
  · simp only [Option.some.injEq, hn, if_false]
    cases h with
    | none => exact octetClass_eq_spec n
    | some s =>
      by_cases hs : s = ""
      · subst hs
        have h1 : strContains (strToLower "") "router" = false := by decide
        have h2 : strContains (strToLower "") "gateway" = false := by decide
        have h3 : strContains (strToLower "") "switch" = false := by decide
        have h4 : strContains (strToLower "") "printer" = false := by decide
        have h5 : strContains (strToLower "") "phone" = false := by decide
        have h6 : strContains (strToLower "") "android" = false := by decide
        have h7 : strContains (strToLower "") "iphone" = false := by decide
        have h8 : strContains (strToLower "") "tv" = false := by decide
        have h9 : strContains (strToLower "") "roku" = false := by decide
        have h10 : strContains (strToLower "") "chromecast" = false := by decide
        have h11 : strContains (strToLower "") "camera" = false := by decide
        have h12 : strContains (strToLower "") "server" = false := by decide
        simp only [h1, h2, h3, h4, h5, h6, h7, h8, h9, h10, h11, h12,
          Bool.or_self, Bool.false_or, if_pos rfl, Bool.false_eq_true, if_false]
        exact octetClass_eq_spec n
      · simp only [hs, if_false]
        unfold hostnameClass
        split_ifs <;> simp_all [classLabel, octetClass_eq_spec]

/-!  Claims. -/

/-- Claim C1: a scan request arriving while the in-progress flag is set fails
immediately with the sweep-conflict condition (HTTP 409), emits no broadcast,
and leaves the whole module state — in particular the device store —
unchanged. -/
theorem claim_C1_scan_conflict (st : ServerState) (net : Option NetworkInfo)
    (env : String → Option HostReply) (now : Nat) (h : st.scanInProgress = true) :
    handleScan st net env now = ⟨st, .conflict, []⟩ ∧ httpStatus .conflict = 409 := by
  unfold handleScan
  rw [h]
  exact ⟨rfl, rfl⟩

/-- Server state with an empty store and the in-progress flag set, for the C1
witness. -/
def oneBusyState : ServerState := ⟨[], true⟩

/-- Witness for C1 at a concrete busy state. -/
theorem claim_C1_scan_conflict_witness :
    handleScan oneBusyState none (fun _ => none) 0 = ⟨oneBusyState, .conflict, []⟩
    ∧ httpStatus .conflict = 409 :=
  claim_C1_scan_conflict oneBusyState none (fun _ => none) 0 rfl

/-- Claim C2 (amended): classification follows the ordered first-match
heuristic — it agrees pointwise with the spec-side `specClassify` — and an
address whose last octet parses to 1 always classifies Router regardless of
name; a name containing printer classifies Printer provided the address does
not end in .1 AND the name does not also match one of the earlier patterns
(router, gateway, switch).  The unamended claim drops that last proviso and
is refuted by `claim_C2_classification_counterexample`. -/
theorem claim_C2_classification_amended :
    (∀ ip h m n, lastOctetOf ip = some n →
      guessDeviceType ip h m = classLabel (specClassify n h))
    ∧ (∀ ip h m, lastOctetOf ip = some 1 → guessDeviceType ip h m = "Router")
    ∧ (∀ ip hn m n, lastOctetOf ip = some n → n ≠ 1 →
        strContains (strToLower hn) "printer" = true →
        strContains (strToLower hn) "router" = false →
        strContains (strToLower hn) "gateway" = false →
        strContains (strToLower hn) "switch" = false →
        guessDeviceType ip (some hn) m = "Printer") := by
  refine ⟨fun ip h m n hoct => guess_eq_spec ip h m n hoct, ?_, ?_⟩
  · intro ip h m hoct
    unfold guessDeviceType
    rw [hoct]
    simp
  · intro ip hn m n hoct hn1 hp hr hg hsw
    have hne : hn ≠ "" := by
      intro he
      rw [he] at hp
      exact absurd hp (by decide)
    unfold guessDeviceType
    rw [hoct]
    simp only [Option.some.injEq, hn1, if_false, hne]
    unfold hostnameClass
    simp only [hp, hr, hg, hsw, Bool.or_self, Bool.false_eq_true, if_false, if_true]

/-- Counterexample to C2 as stated: the name gateway-printer contains
printer and the address 192.168.0.2 does not end in .1, yet the device
classifies Router (the gateway pattern matches first), not Printer. -/
theorem claim_C2_classification_counterexample :
    strContains (strToLower "gateway-printer") "printer" = true
    ∧ lastOctetOf "192.168.0.2" = some 2
    ∧ guessDeviceType "192.168.0.2" (some "gateway-printer") none = "Router"
    ∧ guessDeviceType "192.168.0.2" (some "gateway-printer") none ≠ "Printer" := by
  decide

/-- Witness for the amended C2 at concrete inputs: a SmartTV name, a .1
address with a printer name (Router wins), and a plain printer name. -/
theorem claim_C2_classification_witness :
    guessDeviceType "192.168.1.60" (some "LivingRoomTV") none = "Smart TV"
    ∧ guessDeviceType "10.0.0.1" (some "printer") none = "Router"
    ∧ guessDeviceType "10.0.0.9" (some "my-printer") none = "Printer" := by
  refine ⟨?_, ?_, ?_⟩
  · exact (claim_C2_classification_amended.1 "192.168.1.60" (some "LivingRoomTV") none 60
      (by decide)).trans (by decide)
  · exact claim_C2_classification_amended.2.1 "10.0.0.1" (some "printer") none (by decide)
  · exact claim_C2_classification_amended.2.2 "10.0.0.9" "my-printer" none 9 (by decide)
      (by decide) (by decide) (by decide) (by decide) (by decide)

/-- Claim C3: when every probe of the cycle settles (none rejects) and the
store keys are distinct (as in a JavaScript Map), each device whose probe
resolves gets status online with lastSeen advanced to now on success, or
status offline with lastSeen retained on failure, and the cycle emits for
that address exactly one status-change event — carrying the address, the new
status and the resulting lastSeen — iff the status changed, and none
otherwise. -/
theorem claim_C3_reconciliation (devs : Store) (penv : String → PingOutcome) (now : Nat)
    (hne : ∀ a, penv a ≠ .err) (hnd : (devs.map Prod.fst).Nodup)
    (ip : String) (d : Device) (alive : Bool)
    (hmem : (ip, d) ∈ devs) (hp : penv ip = .ok alive) :
    ((ip, { d with
        status := (if alive then "online" else "offline"),
        lastSeen := (if alive then now else d.lastSeen) }) ∈ (monitorCycle devs penv now).1)
    ∧ ((monitorCycle devs penv now).2.filter (fun e => eventAddr e = some ip)
        = if d.status = (if alive then "online" else "offline") then []
          else [Event.statusChange ip (if alive then "online" else "offline")
            (if alive then now else d.lastSeen)]) := by
  induction devs with
  | nil => cases hmem
  | cons a t ih =>
    obtain ⟨ka, da⟩ := a
    rw [List.map_cons, List.nodup_cons] at hnd
    rcases List.mem_cons.mp hmem with heq | hmemt
    · obtain ⟨h1, h2⟩ := Prod.mk.inj heq
      subst h1
      subst h2
      rw [monitorCycle, hp]
      simp only
      constructor
      · exact List.mem_cons_self _ _
      · rw [List.filter_append]
        have htail : (monitorCycle t penv now).2.filter (fun e => eventAddr e = some ip) = [] := by
          rw [List.filter_eq_nil_iff]
          intro e he
          rcases monitorCycle_eventAddr t penv now e he with ⟨ipx, he1, he2⟩
          simp only [he1, decide_eq_true_eq, Option.some.injEq]
          intro hx
          exact hnd.1 (hx ▸ he2)
        rw [htail, List.append_nil]
        by_cases hst : d.status = (if alive then "online" else "offline")
        · rw [if_pos hst, if_neg (by simpa using hst)]
          rfl
        · rw [if_neg hst, if_pos (by simpa using hst)]
          simp [eventAddr]
    · have hka : ka ≠ ip := by
        intro he
        exact hnd.1 (he ▸ List.mem_map.mpr ⟨(ip, d), hmemt, rfl⟩)
      cases hpa : penv ka with
      | err => exact absurd hpa (hne ka)
      | ok al =>
        rw [monitorCycle, hpa]
        simp only
        obtain ⟨ihm, ihe⟩ := ih hnd.2 hmemt
        constructor
        · exact List.mem_cons_of_mem _ ihm
        · rw [List.filter_append, ihe]
          have hhead : (if da.status ≠ (if al then "online" else "offline") then
              [Event.statusChange ka (if al then "online" else "offline")
                (if al then now else da.lastSeen)] else []).filter
              (fun e => eventAddr e = some ip) = [] := by
            by_cases hs : da.status ≠ (if al then "online" else "offline")
            · rw [if_pos hs]
              simp [eventAddr, hka]
            · rw [if_neg hs]
              rfl
          rw [hhead, List.nil_append]

/-- Previously-offline device record for the C3 witness. -/
def reconDevA : Device :=
  ⟨"10.0.0.9", "Unknown", "10.0.0.9", "Device", "offline", 40, 0⟩

/-- Ping oracle for the C3 witness: every probe resolves alive. -/
def allAlivePenv : String → PingOutcome := fun _ => .ok true

/-- Witness for C3: a previously offline device that answers the probe goes
online with lastSeen advanced, and exactly one status-change event is
emitted. -/
theorem claim_C3_reconciliation_witness :
    (("10.0.0.9", { reconDevA with
        status := (if true then "online" else "offline"),
        lastSeen := (if true then 90 else reconDevA.lastSeen) })
      ∈ (monitorCycle [("10.0.0.9", reconDevA)] allAlivePenv 90).1)
    ∧ ((monitorCycle [("10.0.0.9", reconDevA)] allAlivePenv 90).2.filter
        (fun e => eventAddr e = some "10.0.0.9")
        = if reconDevA.status = (if true then "online" else "offline") then []
          else [Event.statusChange "10.0.0.9" (if true then "online" else "offline")
            (if true then 90 else reconDevA.lastSeen)]) :=
  claim_C3_reconciliation [("10.0.0.9", reconDevA)] allAlivePenv 90 (fun a h => nomatch h)
    (by decide) "10.0.0.9" reconDevA true (by decide) rfl

/-- Claim C4: a sweep enumerates exactly the last-octet values 1..254 (each
octet once), probes one candidate address per octet, keeps every address
whose probe settles successfully regardless of the other probes' outcomes,
merges exactly the settled successful results into the store, answers 200
with the count and list of devices found in this sweep, and broadcasts one
scan-complete event carrying the full post-merge snapshot. -/
theorem claim_C4_sweep (st : ServerState) (n : NetworkInfo) (env : String → Option HostReply)
    (now : Nat) (hflag : st.scanInProgress = false) :
    (∀ v, v ∈ sweepOctets ↔ 1 ≤ v ∧ v ≤ 254)
    ∧ sweepOctets.Nodup
    ∧ sweepAddresses (baseIPOf n) = sweepOctets.map (fun v => baseIPOf n ++ "." ++ Nat.repr v)
    ∧ scanNetworkARP n env now
        = (sweepAddresses (baseIPOf n)).filterMap (fun a => scanHost a env now)
    ∧ (∀ a d, a ∈ sweepAddresses (baseIPOf n) → scanHost a env now = some d →
        d ∈ scanNetworkARP n env now)
    ∧ (handleScan st (some n) env now).state.devices
        = (scanNetworkARP n env now).foldl (fun s d => storeSet s d.ip d) st.devices
    ∧ (handleScan st (some n) env now).resp
        = .ok (scanNetworkARP n env now).length (scanNetworkARP n env now)
    ∧ (handleScan st (some n) env now).events
        = [.scanComplete (storeValues (handleScan st (some n) env now).state.devices)] := by
  have hred : handleScan st (some n) env now
      = ⟨⟨(scanNetworkARP n env now).foldl (fun s d => storeSet s d.ip d) st.devices, false⟩,
          .ok (scanNetworkARP n env now).length (scanNetworkARP n env now),
          [.scanComplete (storeValues
            ((scanNetworkARP n env now).foldl (fun s d => storeSet s d.ip d) st.devices))]⟩ := by
    unfold handleScan
    rw [hflag]
    rfl
  refine ⟨?_, ?_, rfl, rfl, ?_, ?_, ?_, ?_⟩
  · intro v
    rw [sweepOctets, List.mem_map]
    constructor
    · rintro ⟨a, ha, rfl⟩
      rw [List.mem_range] at ha
      omega
    · rintro ⟨h1, h2⟩
      exact ⟨v - 1, by rw [List.mem_range]; omega, by omega⟩
  · exact List.Nodup.map (add_left_injective 1) (List.nodup_range 254)
  · intro a d ha hs
    exact List.mem_filterMap.mpr ⟨a, ha, hs⟩
  · rw [hred]
  · rw [hred]
  · rw [hred]

/-- Witness for C4 at a concrete idle state, /24 topology and all-silent
probe environment. -/
theorem claim_C4_sweep_witness :
    ((∀ v, v ∈ sweepOctets ↔ 1 ≤ v ∧ v ≤ 254)
    ∧ sweepOctets.Nodup
    ∧ sweepAddresses (baseIPOf ⟨"192.168.1.7", "255.255.255.0"⟩)
        = sweepOctets.map (fun v => baseIPOf ⟨"192.168.1.7", "255.255.255.0"⟩ ++ "." ++ Nat.repr v)
    ∧ scanNetworkARP ⟨"192.168.1.7", "255.255.255.0"⟩ (fun _ => none) 0
        = (sweepAddresses (baseIPOf ⟨"192.168.1.7", "255.255.255.0"⟩)).filterMap
            (fun a => scanHost a (fun _ => none) 0)
    ∧ (∀ a d, a ∈ sweepAddresses (baseIPOf ⟨"192.168.1.7", "255.255.255.0"⟩) →
        scanHost a (fun _ => none) 0 = some d →
        d ∈ scanNetworkARP ⟨"192.168.1.7", "255.255.255.0"⟩ (fun _ => none) 0)
    ∧ (handleScan initialState (some ⟨"192.168.1.7", "255.255.255.0"⟩)
        (fun _ => none) 0).state.devices
        = (scanNetworkARP ⟨"192.168.1.7", "255.255.255.0"⟩ (fun _ => none) 0).foldl
            (fun s d => storeSet s d.ip d) initialState.devices
    ∧ (handleScan initialState (some ⟨"192.168.1.7", "255.255.255.0"⟩) (fun _ => none) 0).resp
        = .ok (scanNetworkARP ⟨"192.168.1.7", "255.255.255.0"⟩ (fun _ => none) 0).length
            (scanNetworkARP ⟨"192.168.1.7", "255.255.255.0"⟩ (fun _ => none) 0)
    ∧ (handleScan initialState (some ⟨"192.168.1.7", "255.255.255.0"⟩) (fun _ => none) 0).events
        = [.scanComplete (storeValues
            (handleScan initialState (some ⟨"192.168.1.7", "255.255.255.0"⟩)
              (fun _ => none) 0).state.devices)]) :=
  claim_C4_sweep initialState ⟨"192.168.1.7", "255.255.255.0"⟩ (fun _ => none) 0 rfl

/-- Claim C5: merging one successful probe result (always built with status
online) stores exactly that full record under its address — overwriting link
address, name, classification, status, lastSeen and response time when the
key was known — leaves every other key untouched, grows the store by exactly
one entry iff the address was previously unknown, and never deletes a
record. -/
theorem claim_C5_merge (s : Store) (ip : String) (r : HostReply) (now : Nat) (d : Device)
    (hd : d = mkDevice ip r now) :
    d.status = "online" ∧ d.ip = ip
    ∧ storeGet (storeSet s d.ip d) ip = some d
    ∧ (∀ k, k ≠ ip → storeGet (storeSet s d.ip d) k = storeGet s k)
    ∧ (storeGet s ip = none → (storeSet s d.ip d).length = s.length + 1)
    ∧ (storeGet s ip ≠ none → (storeSet s d.ip d).length = s.length)
    ∧ (∀ k, (storeGet s k).isSome = true → (storeGet (storeSet s d.ip d) k).isSome = true) := by
  subst hd
  simp only [show (mkDevice ip r now).ip = ip from rfl]
  refine ⟨rfl, trivial, storeGet_storeSet_self s ip _, ?_, ?_, ?_, ?_⟩
  · intro k hk
    exact storeGet_storeSet_ne s ip k _ hk
  · intro hnone
    rw [length_storeSet, if_pos hnone]
  · intro hsome
    rw [length_storeSet, if_neg hsome]
  · intro k hk
    by_cases hki : k = ip
    · subst hki
      rw [storeGet_storeSet_self]
      rfl
    · rw [storeGet_storeSet_ne s ip k _ hki]
      exact hk

/-- Successful probe reply used by the C5 witness. -/
def demoReply : HostReply := ⟨true, 12, some "aa:bb:cc:dd:ee:ff", some "homeserver"⟩

/-- Device record the C5 witness merges. -/
def demoDeviceA : Device := mkDevice "192.168.1.50" demoReply 77

/-- Witness for C5: merging into an empty store. -/
theorem claim_C5_merge_witness :
    demoDeviceA.status = "online" ∧ demoDeviceA.ip = "192.168.1.50"
    ∧ storeGet (storeSet [] demoDeviceA.ip demoDeviceA) "192.168.1.50" = some demoDeviceA
    ∧ (∀ k, k ≠ "192.168.1.50" →
        storeGet (storeSet [] demoDeviceA.ip demoDeviceA) k = storeGet [] k)
    ∧ (storeGet [] "192.168.1.50" = none →
        (storeSet [] demoDeviceA.ip demoDeviceA).length = List.length ([] : Store) + 1)
    ∧ (storeGet [] "192.168.1.50" ≠ none →
        (storeSet [] demoDeviceA.ip demoDeviceA).length = List.length ([] : Store))
    ∧ (∀ k, (storeGet [] k).isSome = true →
        (storeGet (storeSet [] demoDeviceA.ip demoDeviceA) k).isSome = true) :=
  claim_C5_merge [] "192.168.1.50" demoReply 77 demoDeviceA rfl

/-- Claim C6: a scan attempt that actually starts (the flag was clear, so
the handler sets it and launches the sweep) always ends with the flag clear
again, on the success path and on the internal-failure path alike, so a
failed sweep cannot permanently block future sweeps. -/
theorem claim_C6_flag_cleared (st : ServerState) (net : Option NetworkInfo)
    (env : String → Option HostReply) (now : Nat) (h : st.scanInProgress = false) :
    (handleScan st net env now).state.scanInProgress = false := by
  unfold handleScan
  rw [h]
  cases net <;> simp

/-- Witness for C6 on the internal-failure path (no usable network
interface). -/
theorem claim_C6_flag_cleared_witness :
    (handleScan initialState none (fun _ => none) 0).state.scanInProgress = false :=
  claim_C6_flag_cleared initialState none (fun _ => none) 0 rfl

/-- Online device records and a ping oracle whose probe for the first store
entry rejects, exhibiting the monitoring loop's missing per-address error
handling (C7). -/
def wedgeDevA : Device :=
  ⟨"10.0.0.2", "Unknown", "10.0.0.2", "Server", "online", 40, 3⟩

/-- Second store entry for the C7 failing input; its probe resolves dead. -/
def wedgeDevB : Device :=
  ⟨"10.0.0.3", "Unknown", "10.0.0.3", "Server", "online", 40, 3⟩

/-- Ping oracle for the C7 failing input: the probe of 10.0.0.2 rejects and
every other probe resolves dead. -/
def wedgePenv : String → PingOutcome :=
  fun a => if a = "10.0.0.2" then .err else .ok false

/-- Claim C7 fails on the code: the loop body of the 30-second monitor has
no per-address error handling, so when the probe for the first address
rejects, the cycle aborts — the second device is never updated (it stays
online although its probe would have reported it dead) and no events are
emitted. -/
theorem claim_C7_monitor_abort :
    monitorCycle [("10.0.0.2", wedgeDevA), ("10.0.0.3", wedgeDevB)] wedgePenv 100
      = ([("10.0.0.2", wedgeDevA), ("10.0.0.3", wedgeDevB)], [])
    ∧ wedgePenv "10.0.0.3" = .ok false
    ∧ wedgeDevB.status = "online"
    ∧ (storeGet (monitorCycle [("10.0.0.2", wedgeDevA), ("10.0.0.3", wedgeDevB)]
        wedgePenv 100).1 "10.0.0.3").map Device.status = some "online" := by
  decide

/-- Claim C8: in every reachable server state under a fixed topology, every
key of the device store is an address of the swept /24 range — the base
prefix derived from the local interface followed by a last octet between 1
and 254; no operation ever creates a record outside that range. -/
theorem claim_C8_range_invariant (n : NetworkInfo) (st : ServerState)
    (hr : Reachable (some n) st) :
    ∀ k d, (k, d) ∈ st.devices →
      ∃ v, 1 ≤ v ∧ v ≤ 254 ∧ k = baseIPOf n ++ "." ++ Nat.repr v := by
  induction hr with
  | init =>
    intro k d hmem
    cases hmem
  | scan st1 env now hst ih =>
    intro k d hmem
    cases hflag : st1.scanInProgress with
    | true =>
      have hred : (handleScan st1 (some n) env now).state.devices = st1.devices := by
        unfold handleScan
        rw [hflag]
        rfl
      rw [hred] at hmem
      exact ih k d hmem
    | false =>
      have hred : (handleScan st1 (some n) env now).state.devices
          = (scanNetworkARP n env now).foldl (fun s dv => storeSet s dv.ip dv) st1.devices := by
        unfold handleScan
        rw [hflag]
        rfl
      rw [hred] at hmem
      rcases mem_foldl_storeSet _ _ _ _ hmem with h1 | ⟨dev, hdev, hk⟩
      · exact ih k d h1
      · rcases List.mem_filterMap.mp hdev with ⟨a, ha, hsc⟩
        rcases mem_sweepAddresses _ _ ha with ⟨v, hv1, hv2, rfl⟩
        exact ⟨v, hv1, hv2, by rw [hk, scanHost_ip _ _ _ _ hsc]⟩
  | monitor st1 penv now hst ih =>
    intro k d hmem
    have hkeys : k ∈ (st1.devices.map Prod.fst) := by
      rw [← monitorCycle_keys st1.devices penv now]
      exact List.mem_map.mpr ⟨(k, d), hmem, rfl⟩
    rcases List.mem_map.mp hkeys with ⟨p, hp, hpk⟩
    rcases ih p.1 p.2 (by rwa [Prod.mk.eta]) with ⟨v, hv1, hv2, hv3⟩
    exact ⟨v, hv1, hv2, hpk ▸ hv3⟩

/-- Topology fixed for the C8 witness. -/
def demoNet : NetworkInfo := ⟨"192.168.1.7", "255.255.255.0"⟩

/-- Probe environment for the C8 witness: only 192.168.1.5 answers. -/
def demoEnv : String → Option HostReply :=
  fun a =>
    if a = "192.168.1.5" then some ⟨true, 3, some "aa:bb:cc:dd:ee:ff", some "homeserver"⟩
    else some ⟨false, 0, none, none⟩

/-- Reachable state for the C8 witness: the state after one sweep from
startup. -/
def demoScanState : ServerState := (handleScan initialState (some demoNet) demoEnv 10).state

/-- Witness for C8 at the concrete reachable state with one discovered
device. -/
theorem claim_C8_range_invariant_witness :
    ∃ v, 1 ≤ v ∧ v ≤ 254 ∧ "192.168.1.5" = baseIPOf demoNet ++ "." ++ Nat.repr v :=
  claim_C8_range_invariant demoNet demoScanState
    (Reachable.scan initialState demoEnv 10 Reachable.init)
    "192.168.1.5" (mkDevice "192.168.1.5" ⟨true, 3, some "aa:bb:cc:dd:ee:ff", some "homeserver"⟩ 10)
    (by decide)

/-- Claim C9: for any address with at least three dot-fields, the derived
range is the first three fields joined with .0/24, and the result does not
depend on the netmask argument at all — a mask other than /24 silently yields the
same /24-shaped range. -/
theorem claim_C9_network_range (ip netmask : String) (a b c : String) (rest : List String)
    (hsplit : splitOnChar ip '.' = a :: b :: c :: rest) :
    calculateNetworkRange ip netmask = a ++ "." ++ b ++ "." ++ c ++ ".0/24"
    ∧ ∀ netmask2, calculateNetworkRange ip netmask2 = calculateNetworkRange ip netmask := by
  constructor
  · unfold calculateNetworkRange
    rw [hsplit]
    rfl
  · intro m2
    rfl

/-- Witness for C9 at a concrete address with a netmask other than /24. -/
theorem claim_C9_network_range_witness :
    calculateNetworkRange "10.20.30.40" "255.255.0.0" = "10" ++ "." ++ "20" ++ "." ++ "30" ++ ".0/24"
    ∧ calculateNetworkRange "10.20.30.40" "255.0.0.0"
        = calculateNetworkRange "10.20.30.40" "255.255.0.0" := by
  have h := claim_C9_network_range "10.20.30.40" "255.255.0.0" "10" "20" "30" ["40"] (by decide)
  exact ⟨h.1, h.2 "255.0.0.0"⟩

/-- Claim C10: the classification result never depends on the MAC argument —
any two calls differing only in the MAC value coincide (the vendor branch in
the source computes a value it never uses). -/
theorem claim_C10_mac_independent (ip : String) (h : Option String) (m1 m2 : Option String) :
    guessDeviceType ip h m1 = guessDeviceType ip h m2 := rfl

end NetworkMonitor

